import Mathlib

/-!
Verification of the Code-Narrator frontend (React application under
`src/frontend/autodoc-frontend/src`) against its natural-language
specification.  The JavaScript components are shallowly embedded as pure
Lean functions: state updates become explicit state-passing, JS truthiness
checks on optional fields become explicit tests, and floating-point
arithmetic on small integer counts is idealised as exact rational
arithmetic.
-/

namespace CodeNarrator

/-! ## File-extension classification (`RecentFiles.js`, `CodeUpload.js`) -/

/-- JavaScript `x.split(sep)` over a character list for a one-character
separator: splitting the empty string yields `[""]`, and a trailing
separator yields a trailing empty part, exactly as in JS. -/
def splitOnChar (sep : Char) : List Char → List (List Char)
  | [] => [[]]
  | c :: cs =>
    let r := splitOnChar sep cs
    if c = sep then [] :: r
    else
      match r with
      | [] => [[c]]
      | h :: t => (c :: h) :: t

/-- `file.filename.split('.').pop().toLowerCase()` from
`RecentFiles.handleFileClick` (line 38): the substring after the last dot
(the whole name when there is no dot), lower-cased. -/
def extOf (filename : String) : String :=
  String.mk (((splitOnChar '.' filename.data).getLastD []).map Char.toLower)

/-- The recognized source-code extensions from `RecentFiles.js` line 57:
`['py', 'java', 'js', 'jsx']`. -/
def supportedExtensions : List String := ["py", "java", "js", "jsx"]

/-- The visible outcome of clicking a file card in the recent-files list:
download the markdown, issue a `/parse-code/` request, or alert that the
type is unsupported (the alert message carries the extension). -/
inductive ClickAction where
  | downloadMd
  | parseRequest
  | unsupportedAlert (ext : String)
  deriving DecidableEq, Repr

/-- `RecentFiles.handleFileClick` (lines 36-100) reduced to its dispatch
on the file extension: `md` files are downloaded, recognized source
extensions go to the `/parse-code/` endpoint, everything else raises the
"not supported" alert and never reaches a parser. -/
def handleFileClick (filename : String) : ClickAction :=
  let fileExtension := extOf filename
  if fileExtension = "md" then
    .downloadMd
  else if fileExtension ∈ supportedExtensions then
    .parseRequest
  else
    .unsupportedAlert fileExtension

/-- The `accept` attribute of the upload input in `CodeUpload.js` line 96. -/
def uploadAccept : String := ".py,.java,.js,.jsx"

/-! ## Suggestions (`Suggestions.js`, `App.js`) -/

/-- A suggestion object as received from the `/suggest/` endpoint and
consumed by `Suggestions.js`: the severity `type`, the optional source
`line`, the human-readable `message` and the optional `code` excerpt.
Fields a JS object may lack are `Option`s. -/
structure Suggestion where
  type : Option String
  line : Option Nat
  message : Option String
  code : Option String
  deriving DecidableEq, Repr

/-- Model of the JavaScript builtin `JSON.stringify` on a suggestion
object: the defined fields, serialized in declaration order and wrapped
in braces (string escaping of exotic characters is not modelled). -/
def jsonStringify (s : Suggestion) : String :=
  let fields :=
    (match s.type with
      | some t => ["\"type\":\"" ++ t ++ "\""]
      | none => []) ++
    (match s.line with
      | some n => ["\"line\":" ++ toString n]
      | none => []) ++
    (match s.message with
      | some m => ["\"message\":\"" ++ m ++ "\""]
      | none => []) ++
    (match s.code with
      | some c => ["\"code\":\"" ++ c ++ "\""]
      | none => [])
  "\x7b" ++ String.intercalate "," fields ++ "\x7d"

/-- A JavaScript value handed to `formatSuggestion`: a plain string, a
number, a boolean, a suggestion object, `null` or `undefined` (an array
behaves like a message-less object and is subsumed by `obj`). -/
inductive SuggestionValue where
  | str (s : String)
  | num (n : Int)
  | boolVal (b : Bool)
  | obj (o : Suggestion)
  | nullVal
  | undefVal
  deriving DecidableEq

/-- Model of `JSON.stringify` on a `SuggestionValue` (the `undefVal`
case is unreachable from `formatSuggestion`, which throws before
serializing `undefined`). -/
def jsonStringifyValue : SuggestionValue → String
  | .str s => "\"" ++ s ++ "\""
  | .num n => toString n
  | .boolVal true => "true"
  | .boolVal false => "false"
  | .obj o => jsonStringify o
  | .nullVal => "null"
  | .undefVal => "undefined"

/-- The object branch of `Suggestions.formatSuggestion` (part_002
lines 46-50): a truthy `message` is returned, anything else is
JSON-serialized. -/
def formatSuggestionObj (o : Suggestion) : String :=
  match o.message with
  | some m => if m = "" then jsonStringify o else m
  | none => jsonStringify o

/-- `Suggestions.formatSuggestion` (part_002 lines 41-51) over the full
JS value domain: a string is returned unchanged
(`typeof suggestion === 'string'`); every other shape falls through to
the property access `suggestion.message`, which on `null` or
`undefined` throws a `TypeError` (modelled as `Except.error`) — `null`
is not caught by the string test since `typeof null` is `'object'`. On
numbers and booleans the access yields `undefined`, which is falsy, so
they are JSON-serialized; an object is handled by
`formatSuggestionObj`. -/
def formatSuggestion : SuggestionValue → Except String String
  | .str s => .ok s
  | .obj o => .ok (formatSuggestionObj o)
  | .num n => .ok (jsonStringifyValue (.num n))
  | .boolVal b => .ok (jsonStringifyValue (.boolVal b))
  | .nullVal => .error "TypeError"
  | .undefVal => .error "TypeError"

/-- The parts of one rendered suggestion card in `Suggestions.js`
(lines 104-130): the optional "Line n" label, the optional type badge,
the always-present message paragraph, and the optional code block. -/
structure RenderedItem where
  lineLabel : Option String
  typeBadge : Option String
  messageText : String
  codeBlock : Option String
  deriving DecidableEq

/-- One suggestion card as rendered by `Suggestions.js` lines 104-130.
`suggestion.line && ...` and `suggestion.code && ...` are JS truthiness
guards: `0` and the empty string are falsy. -/
def renderSuggestionItem (s : Suggestion) : RenderedItem where
  lineLabel :=
    match s.line with
    | some n => if n = 0 then none else some ("Line " ++ toString n)
    | none => none
  typeBadge :=
    match s.type with
    | some t => if t = "" then none else some t
    | none => none
  messageText := formatSuggestionObj s
  codeBlock :=
    match s.code with
    | some c => if c = "" then none else some c
    | none => none

/-- The three mutually exclusive bodies of the suggestions panel
(`Suggestions.js` lines 92-136): loading skeleton, the list of cards, or
the neutral "No Suggestions Yet" default content. There is no error
branch in the component. -/
inductive PanelView where
  | loading
  | listView (items : List RenderedItem)
  | neutral
  deriving DecidableEq

/-- The body of the suggestions panel: `isLoading ? skeleton :
suggestions.length > 0 ? suggestions.map(...) : getDefaultContent()`
(`Suggestions.js` lines 92-136). The list branch maps the card renderer
over the received sequence by index, in order. -/
def suggestionsPanel (isLoading : Bool) (suggestions : List Suggestion) :
    PanelView :=
  if isLoading then .loading
  else if 0 < suggestions.length then .listView (suggestions.map renderSuggestionItem)
  else .neutral

/-- Outcome of the `/suggest/` fetch in `App.generateSuggestions`:
either the parsed response body (whose `suggestions` field may be
absent), or a thrown network/parse error. -/
inductive SuggestOutcome where
  | success (suggestions : Option (List Suggestion))
  | failure
  deriving DecidableEq

/-- `App.generateSuggestions` (App.js lines 41-59) as a transformer of
the `suggestions` state: on success the state is set to the response's
`suggestions` field when that field is truthy (any array, even empty, is
truthy; an absent field leaves the state untouched); a thrown error sets
the state to the empty list. -/
def generateSuggestions : SuggestOutcome → List Suggestion → List Suggestion
  | .success (some l), _ => l
  | .success none, prev => prev
  | .failure, _ => []

/-! ## Upload flow (`CodeUpload.js`, `App.js`) -/

/-- The body of a `/parse-code/` response as used by
`CodeUpload.handleFiles`: the `error` flag, the optional `message`, and
the payload fields. -/
structure ParseResponse where
  error : Bool
  message : Option String
  markdown_content : String
  language : String
  deriving DecidableEq

/-- The application state of `App.js` that the upload flow touches. -/
structure AppState where
  uploadedFile : Option String
  generatedDocs : String
  language : String
  suggestions : List Suggestion
  deriving DecidableEq

/-- JS `m || fallback` for an optional string: the empty string is falsy
and also falls back. -/
def jsOrDefault (m : Option String) (fallback : String) : String :=
  match m with
  | some s => if s = "" then fallback else s
  | none => fallback

/-- `App.handleFileUpload` (App.js lines 29-39): store the file, the
generated docs and the language, then run `generateSuggestions` for the
file (its fetch outcome is passed explicitly). -/
def handleFileUpload (filename docs lang : String) (outcome : SuggestOutcome)
    (st : AppState) : AppState :=
  { uploadedFile := some filename
    generatedDocs := docs
    language := lang
    suggestions := generateSuggestions outcome st.suggestions }

/-- `CodeUpload.handleFiles` (CodeUpload.js lines 12-49), success path of
the POST: when `response.data.error` is truthy the component only sets
its error banner (`message || 'Error processing file'`) and never calls
`onFileUpload`, so the app state is returned unchanged; otherwise
`onFileUpload` is invoked with the payload. Returns the new app state
and the error banner content. -/
def handleFiles (resp : ParseResponse) (filename : String)
    (outcome : SuggestOutcome) (st : AppState) : AppState × Option String :=
  if resp.error then
    (st, some (jsOrDefault resp.message "Error processing file"))
  else
    (handleFileUpload filename resp.markdown_content resp.language outcome st, none)

/-! ## Documentation rendering (`Documentation.js`) -/

/-- First occurrence of the pattern in a character list: returns the
characters before the match and the characters after it. -/
def findSplit (pat : List Char) : List Char → Option (List Char × List Char)
  | [] => if pat.isPrefixOf [] then some ([], []) else none
  | c :: cs =>
    if pat.isPrefixOf (c :: cs) then some ([], (c :: cs).drop pat.length)
    else (findSplit pat cs).map (fun p => (c :: p.1, p.2))

/-- Global non-greedy pair replacement, as in
`text.replace(/D(.*?)D/g, 'pre$1post')` for a literal delimiter `D`:
repeatedly find the first delimiter, the nearest following delimiter,
and wrap the enclosed content. Fueled by the input length, which
suffices because every rewrite consumes at least the two delimiters. -/
def replacePairsAux (delim pre post : List Char) : Nat → List Char → List Char
  | 0, l => l
  | fuel + 1, l =>
    match findSplit delim l with
    | none => l
    | some (before, a1) =>
      match findSplit delim a1 with
      | none => l
      | some (content, rest) =>
        before ++ pre ++ content ++ post ++ replacePairsAux delim pre post fuel rest

/-- See `replacePairsAux`. -/
def replacePairs (delim pre post : List Char) (l : List Char) : List Char :=
  replacePairsAux delim pre post l.length l

/-- The three `^#{1,3} ` header rewrites of
`Documentation.formatContent` (lines 10-12), applied to one line. The
match order of the source (`^# ` before `^## ` before `^### `) is
immaterial because the patterns are mutually exclusive. -/
def applyHeader (l : List Char) : List Char :=
  match l with
  | '#' :: ' ' :: rest =>
    "<h1 class=\"doc-h1\">".data ++ rest ++ "</h1>".data
  | '#' :: '#' :: ' ' :: rest =>
    "<h2 class=\"doc-h2\">".data ++ rest ++ "</h2>".data
  | '#' :: '#' :: '#' :: ' ' :: rest =>
    "<h3 class=\"doc-h3\">".data ++ rest ++ "</h3>".data
  | l => l

/-- The `^- ` list-item rewrite of `Documentation.formatContent`
(line 16), applied to one line. -/
def applyListItem (l : List Char) : List Char :=
  match l with
  | '-' :: ' ' :: rest => "<div class=\"doc-list-item\">• ".data ++ rest ++ "</div>".data
  | l => l

/-- One line of `Documentation.formatContent` (lines 9-16): headers,
then bold, italic and inline code (none of the patterns can match
across a newline, so per-line application is equivalent to the global
replaces of the source), then list items. -/
def formatLine (l : List Char) : List Char :=
  applyListItem
    (replacePairs "`".data "<code class=\"doc-code\">".data "</code>".data
      (replacePairs "*".data "<em class=\"doc-em\">".data "</em>".data
        (replacePairs "**".data "<strong class=\"doc-strong\">".data "</strong>".data
          (applyHeader l))))

/-- `Documentation.formatContent` (lines 5-18): the empty (falsy) string
maps to the empty string; otherwise the fixed sequence of regex
replacements is applied, and the final `\n → <br />` rewrite is realised
by joining the processed lines with `<br />`. -/
def formatContent (text : String) : String :=
  if text = "" then ""
  else
    String.mk
      (List.intercalate "<br />".data ((splitOnChar '\n' text.data).map formatLine))

/-! ## File sizes (`RecentFiles.js`) -/

/-- The unit table of `RecentFiles.formatFileSize` (line 152). -/
def sizes : List String := ["B", "KB", "MB"]

/-- `parseFloat((bytes / Math.pow(1024, i)).toFixed(1))` rendered as a
string: the quotient rounded half-up to one decimal, with a trailing
`.0` dropped (as `parseFloat` does). Exact rational arithmetic stands
in for the IEEE computation. -/
def oneDecimalString (bytes divisor : Nat) : String :=
  let n := (20 * bytes + divisor) / (2 * divisor)
  if n % 10 = 0 then toString (n / 10)
  else toString (n / 10) ++ "." ++ toString (n % 10)

/-- `RecentFiles.formatFileSize` (lines 149-155): zero bytes is `"0 B"`;
otherwise the unit index is `Math.floor(Math.log(bytes) / Math.log(1024))`
— which equals `Nat.log 1024 bytes` over exact reals (see
`C10_unit_in_table`) — and the result is the one-decimal value followed
by `sizes[i]` (out-of-range indexing would yield JS `undefined`). -/
def formatFileSize (bytes : Nat) : String :=
  if bytes = 0 then "0 B"
  else
    let i := Nat.log 1024 bytes
    oneDecimalString bytes (1024 ^ i) ++ " " ++ sizes.getD i "undefined"

/-! ## Dashboard coverage (`Dashboard.js`, part_002 lines 248-281) -/

/-- JS `\w`: ASCII letters, digits and underscore. -/
def isWordChar (c : Char) : Bool :=
  c.isAlpha || c.isDigit || c = '_'

/-- JS `\s`, restricted to its ASCII members. -/
def isSpaceChar (c : Char) : Bool :=
  c = ' ' || c = '\t' || c = '\n' || c = '\r' || c = '\x0b' || c = '\x0c'

/-- Match a literal pattern at the head of the list, returning the
remainder. -/
def dropPrefixList : List Char → List Char → Option (List Char)
  | [], l => some l
  | _ :: _, [] => none
  | p :: ps, c :: cs => if c = p then dropPrefixList ps cs else none

/-- Match `kw\s+\w+` (greedily, as the regex engine does) at the head of
the list, returning the remainder after the match. -/
def matchKeywordAt (kw : List Char) (l : List Char) : Option (List Char) :=
  match dropPrefixList kw l with
  | none => none
  | some r =>
    let ws := r.takeWhile isSpaceChar
    if ws.isEmpty then none
    else
      let r1 := r.dropWhile isSpaceChar
      let w := r1.takeWhile isWordChar
      if w.isEmpty then none else some (r1.dropWhile isWordChar)

/-- Count the non-overlapping matches of a matcher over a character
list, resuming after each match as a global regex does. The fuel is the
list length, which suffices because every matcher used consumes at
least one character. -/
def countAux (m : List Char → Option (List Char)) : Nat → List Char → Nat
  | 0, _ => 0
  | _ + 1, [] => 0
  | fuel + 1, c :: cs =>
    match m (c :: cs) with
    | some rest => 1 + countAux m fuel rest
    | none => countAux m fuel cs

/-- `(docs.match(re) || []).length` for a global pattern. -/
def countMatches (m : List Char → Option (List Char)) (s : String) : Nat :=
  countAux m s.data.length s.data

/-- `(docs.match(/def\s+\w+/g) || []).length` (part_002 line 265). -/
def defMatches (docs : String) : Nat :=
  countMatches (matchKeywordAt "def".data) docs

/-- `(docs.match(/class\s+\w+/g) || []).length` (part_002 line 266). -/
def classMatches (docs : String) : Nat :=
  countMatches (matchKeywordAt "class".data) docs

/-- `(docs.match(/Docstring:/g) || []).length` (part_002 line 267). -/
def docstringMatches (docs : String) : Nat :=
  countMatches (dropPrefixList "Docstring:".data) docs

/-- JS `Math.round` on an exact rational: round half-up. -/
def jsRound (q : ℚ) : ℤ := ⌊q + 1 / 2⌋

/-- The `stats` state of `Dashboard` (part_002 lines 250-255). -/
structure DashboardStats where
  totalFunctions : Nat
  documentedFunctions : Nat
  totalClasses : Nat
  documentedClasses : Nat
  deriving DecidableEq, Repr

/-- The result of one `Dashboard.calculateCoverage` run: the `coverage`
percentage and the `stats` it sets. -/
structure CoverageResult where
  coverage : ℤ
  stats : DashboardStats
  deriving DecidableEq, Repr

/-- `Dashboard.calculateCoverage` (part_002 lines 263-281): count
`def`-matches, `class`-matches and `Docstring:` markers in the rendered
Markdown, cap the documented count at the total, and round the
percentage — defaulting to 75 when nothing was found. -/
def calculateCoverage (docs : String) : CoverageResult :=
  let functions := defMatches docs
  let classes := classMatches docs
  let docstrings := docstringMatches docs
  let totalItems := functions + classes
  let documentedItems := min docstrings totalItems
  let calculatedCoverage : ℤ :=
    if 0 < totalItems then
      jsRound ((documentedItems : ℚ) / (totalItems : ℚ) * 100)
    else 75
  { coverage := calculatedCoverage
    stats :=
      { totalFunctions := functions
        documentedFunctions := min docstrings functions
        totalClasses := classes
        documentedClasses := min docstrings classes } }

/-! ## Suggestion ordering (spec §3, §4.4)

The Suggestion Engine itself is a backend component whose source is not
part of this repository; only its consumer (`Suggestions.js`) is. Its
final merge/sort step is therefore modelled from the spec. -/

/-- Modelled from the spec: the severity rank of §3, "error > warning >
info > style" (an unrecognized severity ranks lowest). -/
def severityRank (t : Option String) : Nat :=
  if t = some "error" then 3
  else if t = some "warning" then 2
  else if t = some "info" then 1
  else 0

/-- Modelled from the spec: the sort key of the Suggestion Engine's
merge/sort step — line number ascending, severity rank descending.
Both components fit one natural number because the rank is at most 3;
a suggestion without a line number sorts as line 0. -/
def suggestionKey (s : Suggestion) : Nat :=
  4 * s.line.getD 0 + (3 - severityRank s.type)

/-- The total preorder on suggestions induced by `suggestionKey`. -/
def suggLE (a b : Suggestion) : Prop :=
  suggestionKey a ≤ suggestionKey b

instance : DecidableRel suggLE := fun _ _ => Nat.decLe _ _

instance : IsTotal Suggestion suggLE := ⟨fun _ _ => Nat.le_total _ _⟩

instance : IsTrans Suggestion suggLE := ⟨fun _ _ _ => Nat.le_trans⟩

/-- Modelled from the spec (§4.4): the Suggestion Engine's results are
"merged and sorted per the ordering rule in §3" before being returned. -/
def sortSuggestions (l : List Suggestion) : List Suggestion :=
  l.insertionSort suggLE

/-- The ordering property claimed for every produced suggestion list:
line numbers non-decreasing, and among equal lines the severity rank
non-increasing. -/
def SuggestionOrdered (l : List Suggestion) : Prop :=
  l.Chain' (fun a b =>
    a.line.getD 0 ≤ b.line.getD 0 ∧
    (a.line.getD 0 = b.line.getD 0 → severityRank b.type ≤ severityRank a.type))

end CodeNarrator

/-! ## Claim theorems -/

open CodeNarrator

/-- **C1.** For every filename whose extension (compared
case-insensitively) is not in the recognized set `{py, java, js, jsx}`,
clicking it in the recent-files list — unless it is an `.md` download —
issues no parse request and reports the unsupported type to the user, and
the upload input restricts accepted files to exactly
`.py`, `.java`, `.js`, `.jsx`. -/
theorem C1_unsupported_extension_rejected (filename : String)
    (hnot : extOf filename ∉ supportedExtensions)
    (hmd : extOf filename ≠ "md") :
    handleFileClick filename = .unsupportedAlert (extOf filename) ∧
      uploadAccept = ".py,.java,.js,.jsx" := by
  constructor
  · unfold handleFileClick
    simp only [if_neg hmd, if_neg hnot]
  · rfl

/-- Witness for C1 at the concrete filename `notes.TXT`: the lower-cased
extension `txt` is unsupported and the click produces the alert. -/
theorem C1_witness :
    extOf "notes.TXT" ∉ supportedExtensions ∧
      handleFileClick "notes.TXT" = .unsupportedAlert (extOf "notes.TXT") := by
  refine ⟨by decide, ?_⟩
  exact (C1_unsupported_extension_rejected "notes.TXT" (by decide) (by decide)).1

/-- **C3.** When the `/parse-code/` request returns an error result, the
error message (or the generic fallback) is displayed and the request is
terminal: `onFileUpload` is not invoked, so the previously displayed
documentation, language and suggestions state are unchanged. -/
theorem C3_parse_error_terminal (resp : ParseResponse) (filename : String)
    (outcome : SuggestOutcome) (st : AppState) (herr : resp.error = true) :
    (handleFiles resp filename outcome st).1 = st ∧
      (handleFiles resp filename outcome st).2 =
        some (jsOrDefault resp.message "Error processing file") := by
  unfold handleFiles
  rw [herr]
  exact ⟨rfl, rfl⟩

/-- Witness for C3: a concrete error response leaves a concrete state
untouched and surfaces the returned message verbatim. -/
theorem C3_witness :
    (handleFiles ⟨true, some "Unsupported file type", "", ""⟩ "a.py"
        .failure ⟨some "old.py", "# old docs", "python", []⟩).1 =
      ⟨some "old.py", "# old docs", "python", []⟩ ∧
    (handleFiles ⟨true, some "Unsupported file type", "", ""⟩ "a.py"
        .failure ⟨some "old.py", "# old docs", "python", []⟩).2 =
      some "Unsupported file type" :=
  C3_parse_error_terminal ⟨true, some "Unsupported file type", "", ""⟩
    "a.py" .failure ⟨some "old.py", "# old docs", "python", []⟩ rfl

/-- **C5 counterexample.** A suggestion with `line: 0` and `code: ""`
has both fields present, yet the panel renders neither the line label
nor the code excerpt: JS truthiness guards drop falsy present values,
refuting "rendered if and only if present". -/
theorem C5_counterexample :
    (Suggestion.line ⟨some "info", some 0, some "m", some ""⟩).isSome = true ∧
    (renderSuggestionItem ⟨some "info", some 0, some "m", some ""⟩).lineLabel = none ∧
    (Suggestion.code ⟨some "info", some 0, some "m", some ""⟩).isSome = true ∧
    (renderSuggestionItem ⟨some "info", some 0, some "m", some ""⟩).codeBlock = none := by
  refine ⟨rfl, rfl, rfl, rfl⟩

/-- **C5 (amended).** Every suggestion record carries a severity type, a
message, an optional line number and an optional code excerpt, and the
display respects the optionality up to JS truthiness: the line label is
rendered iff a nonzero line number is present, the code excerpt iff a
nonempty code string is present, while the message paragraph is always
rendered (via `formatSuggestion`). -/
theorem C5_render_respects_optionality (s : Suggestion) :
    formatSuggestion (.obj s) = .ok (renderSuggestionItem s).messageText ∧
    ((renderSuggestionItem s).lineLabel.isSome ↔
      ∃ n, s.line = some n ∧ n ≠ 0) ∧
    ((renderSuggestionItem s).codeBlock.isSome ↔
      ∃ c, s.code = some c ∧ c ≠ "") := by
  unfold renderSuggestionItem
  refine ⟨rfl, ?_, ?_⟩
  · cases h : s.line with
    | none => simp
    | some n =>
      by_cases hn : n = 0 <;> simp [hn]
  · cases h : s.code with
    | none => simp
    | some c =>
      by_cases hc : c = "" <;> simp [hc]

/-- **C6 counterexample.** When the suggestion response lacks a
`suggestions` field, the state is left at its previous value rather than
set to the empty list: with a nonempty previous state the result is not
`[]`, refuting the claim's "set to the empty list" for that case. -/
theorem C6_counterexample :
    generateSuggestions (.success none) [⟨some "info", some 1, some "x", none⟩] =
      [⟨some "info", some 1, some "x", none⟩] ∧
    ([⟨some "info", some 1, some "x", none⟩] : List Suggestion) ≠ [] := by
  exact ⟨rfl, by simp⟩

/-- **C6 (amended).** Suggestion analysis never surfaces an error and an
absence of issues is an empty sequence: a failed request sets the
suggestions state to the empty list, a response lacking the
`suggestions` field leaves the state unchanged, a present field (even an
empty array) replaces the state, and for the empty list the panel shows
the neutral no-suggestions content — the component has no error branch
at all. -/
theorem C6_empty_suggestions_neutral (prev : List Suggestion) :
    generateSuggestions .failure prev = [] ∧
    generateSuggestions (.success none) prev = prev ∧
    (∀ l, generateSuggestions (.success (some l)) prev = l) ∧
    suggestionsPanel false [] = .neutral := by
  exact ⟨rfl, rfl, fun l => rfl, rfl⟩

/-- **C8 counterexample.** `formatSuggestion` is not total over every
suggestion value shape: on `null` (which `typeof suggestion ===
'string'` does not catch, since `typeof null` is `'object'`) the
property access `suggestion.message` throws a `TypeError`, so `null`
reaches an error instead of yielding its JSON serialization `"null"`. -/
theorem C8_counterexample :
    formatSuggestion .nullVal = .error "TypeError" ∧
    formatSuggestion .nullVal ≠ .ok (jsonStringifyValue .nullVal) := by
  exact ⟨rfl, by simp [formatSuggestion]⟩

/-- **C8 (amended).** `formatSuggestion` always returns a string on
every value shape other than `null` and `undefined`: a string input is
returned unchanged, an object with a truthy (nonempty) `message` yields
exactly that message, and any other non-null value (a message-less or
empty-message object, a number, a boolean) yields its JSON
serialization; on `null` and `undefined`, however, the access
`suggestion.message` throws a `TypeError`, so the totality does not
extend to those shapes. -/
theorem C8_formatSuggestion_behavior :
    (∀ s, formatSuggestion (.str s) = .ok s) ∧
    (∀ o m, o.message = some m → m ≠ "" →
      formatSuggestion (.obj o) = .ok m) ∧
    (∀ o, o.message = none ∨ o.message = some "" →
      formatSuggestion (.obj o) = .ok (jsonStringify o)) ∧
    (∀ n, formatSuggestion (.num n) = .ok (jsonStringifyValue (.num n))) ∧
    (∀ b, formatSuggestion (.boolVal b) = .ok (jsonStringifyValue (.boolVal b))) ∧
    formatSuggestion .nullVal = .error "TypeError" ∧
    formatSuggestion .undefVal = .error "TypeError" := by
  refine ⟨fun s => rfl, ?_, ?_, fun n => rfl, fun b => rfl, rfl, rfl⟩
  · intro o m hm hne
    simp only [formatSuggestion, formatSuggestionObj]
    rw [hm]
    simp only [if_neg hne]
  · intro o hm
    simp only [formatSuggestion, formatSuggestionObj]
    rcases hm with h | h <;> rw [h]
    simp

/-- The severity rank is bounded by the rank of `error`. -/
theorem severityRank_le_three (t : Option String) : severityRank t ≤ 3 := by
  unfold severityRank
  split_ifs <;> omega

/-- **C4.** For every suggestion list produced for a file, the
suggestions are in source-line order with line numbers non-decreasing
and, among equal lines, severity rank non-increasing (error before
warning before info before style); the suggestions panel preserves this
order, rendering the received sequence by index without re-sorting. -/
theorem C4_suggestion_order (l : List Suggestion) (hne : l ≠ []) :
    SuggestionOrdered (sortSuggestions l) ∧
    suggestionsPanel false (sortSuggestions l) =
      .listView ((sortSuggestions l).map renderSuggestionItem) := by
  constructor
  · have hs : (sortSuggestions l).Sorted suggLE :=
      List.sorted_insertionSort suggLE l
    unfold SuggestionOrdered
    refine List.Chain'.imp ?_ (List.Pairwise.chain' hs)
    intro a b hab
    have ha := severityRank_le_three a.type
    have hb := severityRank_le_three b.type
    unfold suggLE suggestionKey at hab
    omega
  · have hlen : 0 < (sortSuggestions l).length := by
      have hp : List.Perm (sortSuggestions l) l := List.perm_insertionSort suggLE l
      rw [hp.length_eq]
      exact List.length_pos.mpr hne
    simp [suggestionsPanel, hlen]

/-- Witness for C4 at a concrete two-element list (an `info` on line 1
after an `error` on line 2, which the sort reorders). -/
theorem C4_witness :
    ([⟨some "error", some 2, some "a", none⟩,
      ⟨some "info", some 1, some "b", none⟩] : List Suggestion) ≠ [] ∧
    SuggestionOrdered (sortSuggestions
      [⟨some "error", some 2, some "a", none⟩,
       ⟨some "info", some 1, some "b", none⟩]) :=
  ⟨by simp,
   (C4_suggestion_order
     [⟨some "error", some 2, some "a", none⟩,
      ⟨some "info", some 1, some "b", none⟩] (by simp)).1⟩

/-- The JS rounding of a nonnegative rational is nonnegative. -/
theorem jsRound_nonneg (q : ℚ) (h : 0 ≤ q) : 0 ≤ jsRound q := by
  unfold jsRound
  rw [Int.le_floor]
  push_cast
  linarith

/-- The JS rounding of a rational at most `n` is at most `n`. -/
theorem jsRound_le (q : ℚ) (n : ℤ) (h : q ≤ n) : jsRound q ≤ n := by
  unfold jsRound
  have : ⌊q + 1 / 2⌋ < n + 1 := by
    rw [Int.floor_lt]
    push_cast
    linarith
  omega

/-- **C2.** Documentation coverage is driven solely by the rendered
Markdown: the dashboard counts `def`-plus-identifier matches,
`class`-plus-identifier matches and `Docstring:` markers, and whenever
`defCount + classCount > 0` reports
`round(100 * min(markerCount, defCount + classCount) / (defCount + classCount))`. -/
theorem C2_coverage_formula (docs : String)
    (h : 0 < defMatches docs + classMatches docs) :
    (calculateCoverage docs).coverage =
      jsRound (100 *
        ((min (docstringMatches docs) (defMatches docs + classMatches docs) : ℕ) : ℚ) /
        ((defMatches docs + classMatches docs : ℕ) : ℚ)) := by
  simp only [calculateCoverage]
  rw [if_pos h]
  congr 1
  ring

/-- Witness for C2 on a small documentation string with one function
definition and one marker. -/
theorem C2_witness :
    0 < defMatches "def foo\nDocstring: x" + classMatches "def foo\nDocstring: x" ∧
    (calculateCoverage "def foo\nDocstring: x").coverage =
      jsRound (100 *
        ((min (docstringMatches "def foo\nDocstring: x")
          (defMatches "def foo\nDocstring: x" + classMatches "def foo\nDocstring: x") : ℕ) : ℚ) /
        ((defMatches "def foo\nDocstring: x" + classMatches "def foo\nDocstring: x" : ℕ) : ℚ)) :=
  ⟨by decide, C2_coverage_formula "def foo\nDocstring: x" (by decide)⟩

/-- **C9.** After every coverage recomputation the dashboard statistics
satisfy `documentedFunctions ≤ totalFunctions`,
`documentedClasses ≤ totalClasses`, both documented counts are at most
the marker count, the coverage percentage is an integer in `[0, 100]`,
and it is the fixed default 75 whenever no function or class definition
is found. -/
theorem C9_dashboard_invariants (docs : String) :
    (calculateCoverage docs).stats.documentedFunctions ≤
      (calculateCoverage docs).stats.totalFunctions ∧
    (calculateCoverage docs).stats.documentedClasses ≤
      (calculateCoverage docs).stats.totalClasses ∧
    (calculateCoverage docs).stats.documentedFunctions ≤ docstringMatches docs ∧
    (calculateCoverage docs).stats.documentedClasses ≤ docstringMatches docs ∧
    0 ≤ (calculateCoverage docs).coverage ∧
    (calculateCoverage docs).coverage ≤ 100 ∧
    (defMatches docs + classMatches docs = 0 →
      (calculateCoverage docs).coverage = 75) := by
  simp only [calculateCoverage]
  refine ⟨Nat.min_le_right _ _, Nat.min_le_right _ _,
    Nat.min_le_left _ _, Nat.min_le_left _ _, ?_, ?_, ?_⟩
  · by_cases h : 0 < defMatches docs + classMatches docs
    · rw [if_pos h]
      apply jsRound_nonneg
      positivity
    · rw [if_neg h]
      norm_num
  · by_cases h : 0 < defMatches docs + classMatches docs
    · rw [if_pos h]
      apply jsRound_le
      have ht : (0 : ℚ) < ((defMatches docs + classMatches docs : ℕ) : ℚ) := by
        exact_mod_cast h
      have hd : ((min (docstringMatches docs) (defMatches docs + classMatches docs) : ℕ) : ℚ) ≤
          ((defMatches docs + classMatches docs : ℕ) : ℚ) := by
        exact_mod_cast Nat.min_le_right _ _
      have hq : ((min (docstringMatches docs) (defMatches docs + classMatches docs) : ℕ) : ℚ) /
          ((defMatches docs + classMatches docs : ℕ) : ℚ) ≤ 1 :=
        (div_le_one ht).mpr hd
      calc ((min (docstringMatches docs) (defMatches docs + classMatches docs) : ℕ) : ℚ) /
            ((defMatches docs + classMatches docs : ℕ) : ℚ) * 100
          ≤ 1 * 100 := by nlinarith
        _ = ((100 : ℤ) : ℚ) := by norm_num
    · rw [if_neg h]
      norm_num
  · intro h
    rw [if_neg (by omega)]

/-- **C7.** Documentation rendering is deterministic: `formatContent` is
a fixed sequence of pure text rewrites with no timestamps, randomness or
ordering nondeterminism, so formatting identical generated Markdown
always yields identical HTML. -/
theorem C7_formatContent_deterministic (t1 t2 : String) (h : t1 = t2) :
    formatContent t1 = formatContent t2 := by
  rw [h]

/-- Witness for C7 at a concrete Markdown string. -/
theorem C7_witness :
    formatContent "# Title\n**bold** and `code`" =
      formatContent "# Title\n**bold** and `code`" :=
  C7_formatContent_deterministic "# Title\n**bold** and `code`"
    "# Title\n**bold** and `code`" rfl

/-- **C10.** For every byte count below `1024^3`, `formatFileSize`
draws its unit from the table `{B, KB, MB}`: zero bytes yields exactly
`"0 B"`, and for positive counts the unit index — `Nat.log 1024 bytes`,
which coincides with `⌊log bytes / log 1024⌋` over exact reals — stays
within the three-entry table, so the result is the value rounded to one
decimal followed by a valid unit. -/
theorem C10_unit_in_table (b : Nat) (hlt : b < 1024 ^ 3) :
    formatFileSize 0 = "0 B" ∧
    (0 < b →
      Nat.log 1024 b ≤ 2 ∧
      (Nat.log 1024 b : ℤ) = ⌊Real.log b / Real.log 1024⌋ ∧
      sizes.getD (Nat.log 1024 b) "undefined" ∈ sizes ∧
      formatFileSize b =
        oneDecimalString b (1024 ^ Nat.log 1024 b) ++ " " ++
          sizes.getD (Nat.log 1024 b) "undefined") := by
  refine ⟨rfl, fun hb => ?_⟩
  have hlog : Nat.log 1024 b < 3 :=
    Nat.log_lt_of_lt_pow (Nat.pos_iff_ne_zero.mp hb) hlt
  refine ⟨by omega, ?_, ?_, ?_⟩
  · have h1 : ⌊Real.logb (1024 : ℕ) (b : ℝ)⌋ = Int.log (1024 : ℕ) (b : ℝ) :=
      Real.floor_logb_natCast (by positivity)
    have h2 : Int.log (1024 : ℕ) ((b : ℕ) : ℝ) = Nat.log 1024 b :=
      Int.log_natCast 1024 b
    have h4 : ((1024 : ℕ) : ℝ) = (1024 : ℝ) := by norm_num
    rw [← h2, ← h1, h4, ← Real.log_div_log]
  · have h2 : Nat.log 1024 b ≤ 2 := by omega
    set i := Nat.log 1024 b with hi
    interval_cases i <;> decide
  · unfold formatFileSize
    rw [if_neg (by omega)]

/-- Witness for C10 at 1536 bytes (which formats as `1.5 KB`). -/
theorem C10_witness :
    (1536 < 1024 ^ 3 ∧ 0 < 1536) ∧
      sizes.getD (Nat.log 1024 1536) "undefined" ∈ sizes :=
  ⟨⟨by norm_num, by norm_num⟩,
    ((C10_unit_in_table 1536 (by norm_num)).2 (by norm_num)).2.2.1⟩

/-- Witness for C8 at concrete shapes: a plain string, an object with a
truthy message, and an object with no message (which serializes). -/
theorem C8_witness :
    formatSuggestion (.str "hello") = .ok "hello" ∧
    formatSuggestion (.obj ⟨none, some 2, some "use const", none⟩) = .ok "use const" ∧
    formatSuggestion (.obj ⟨some "info", none, none, none⟩) =
      .ok (jsonStringify ⟨some "info", none, none, none⟩) :=
  ⟨C8_formatSuggestion_behavior.1 "hello",
   C8_formatSuggestion_behavior.2.1 ⟨none, some 2, some "use const", none⟩
     "use const" rfl (by decide),
   C8_formatSuggestion_behavior.2.2.1 ⟨some "info", none, none, none⟩ (Or.inl rfl)⟩
